import Mathlib

/-!
Shallow embedding of `lan8651_kernelfs.py`, a small tool that reads LAN8651
PHY/MAC registers through three kernel text interfaces (debugfs, SPI sysfs
attribute, `ethtool -d` dump) with a fixed-order fallback chain, decodes a
few known register addresses, and exposes a two-command CLI.

The embedding models the filesystem / subprocess world as an explicit `Env`
record of response functions (an exceptional outcome of an external call is
an `Except.error` carrying the message).  Python `int` is embedded as `Int`,
Python `int(s, 0)` as an executable parser `pyIntBase0`, and the `format`
mini-language occurrences (`08x`, `032b`, `04x`, `12s`) as executable
formatters.  Diagnostic `print` calls inside the probing methods are pure
logging that affects no control flow and no claim; the modelled output
(`MainResult.output`) covers the prints of `main` and `show_register_info`.
-/

/-! ### Python string primitives -/

/-- Characters treated as whitespace by Python's `str.strip()` / `int()`
(ASCII part; exotic Unicode whitespace is not used by the program). -/
def isPySpace (c : Char) : Bool :=
  c = ' ' || c = '\t' || c = '\n' || c = '\r' || c = '\x0b' || c = '\x0c'

/-- Python `str.strip()` on a character list. -/
def stripChars (l : List Char) : List Char :=
  ((l.dropWhile isPySpace).reverse.dropWhile isPySpace).reverse

/-- Python `str.strip()`. -/
def pyStrip (s : String) : String := String.mk (stripChars s.data)

/-- Does `hay` start with `sub`? -/
def startsWithChars : List Char → List Char → Bool
  | _, [] => true
  | [], _ :: _ => false
  | a :: as, b :: bs => a = b && startsWithChars as bs

/-- Does `sub` occur as a contiguous substring of `hay`?  (Python `sub in hay`.) -/
def containsSubChars (sub : List Char) : List Char → Bool
  | [] => startsWithChars [] sub
  | c :: t => startsWithChars (c :: t) sub || containsSubChars sub t

/-- Python `sub in s` for strings. -/
def strContains (s sub : String) : Bool := containsSubChars sub.data s.data

/-- Python `str.lower()` (ASCII behaviour suffices for the program's data). -/
def pyLower (s : String) : String := String.mk (s.data.map Char.toLower)

/-- Worker for `splitWs`: accumulates the current (reversed) token. -/
def splitWsGo (acc : List Char) : List Char → List String
  | [] => if acc.isEmpty then [] else [String.mk acc.reverse]
  | c :: rest =>
    if isPySpace c then
      if acc.isEmpty then splitWsGo [] rest
      else String.mk acc.reverse :: splitWsGo [] rest
    else splitWsGo (c :: acc) rest

/-- Python `str.split()` with no argument: split on whitespace runs,
dropping empty tokens. -/
def splitWs (s : String) : List String := splitWsGo [] s.data

/-- Worker for `pySplitChar`. -/
def splitOnCharGo (sep : Char) (acc : List Char) : List Char → List String
  | [] => [String.mk acc.reverse]
  | c :: rest =>
    if c = sep then String.mk acc.reverse :: splitOnCharGo sep [] rest
    else splitOnCharGo sep (c :: acc) rest

/-- Python `str.split(sep)` for a one-character separator (the program only
splits on `'='`, `'/'` and `'\n'`). -/
def pySplitChar (s : String) (sep : Char) : List String :=
  splitOnCharGo sep [] s.data

/-- Python negative indexing `l[-k]` (for `k ≥ 1`): `some` of the element
`l[len - k]` when `k ≤ len`, `none` when the access would raise `IndexError`. -/
def pyNegIdx (l : List α) (k : Nat) : Option α :=
  if k ≤ l.length then l.get? (l.length - k) else none

/-! ### Python `int(s, 0)` -/

/-- Hexadecimal digit value. -/
def hexVal (c : Char) : Option Nat :=
  if '0' ≤ c ∧ c ≤ '9' then some (c.toNat - '0'.toNat)
  else if 'a' ≤ c ∧ c ≤ 'f' then some (c.toNat - 'a'.toNat + 10)
  else if 'A' ≤ c ∧ c ≤ 'F' then some (c.toNat - 'A'.toNat + 10)
  else none

/-- Decimal digit value. -/
def decVal (c : Char) : Option Nat :=
  if '0' ≤ c ∧ c ≤ '9' then some (c.toNat - '0'.toNat) else none

/-- Octal digit value. -/
def octVal (c : Char) : Option Nat :=
  if '0' ≤ c ∧ c ≤ '7' then some (c.toNat - '0'.toNat) else none

/-- Binary digit value. -/
def binVal (c : Char) : Option Nat :=
  if c = '0' then some 0 else if c = '1' then some 1 else none

/-- Digit-sequence accumulator for Python integer literals: a single `'_'`
is permitted between two digits, never doubled, leading or trailing. -/
def pyDigitsAux (dval : Char → Option Nat) (base : Nat) : Nat → List Char → Option Nat
  | acc, [] => some acc
  | acc, c :: rest =>
    if c = '_' then
      match rest with
      | [] => none
      | c2 :: rest2 =>
        match dval c2 with
        | some d => pyDigitsAux dval base (acc * base + d) rest2
        | none => none
    else
      match dval c with
      | some d => pyDigitsAux dval base (acc * base + d) rest
      | none => none

/-- Nonempty digit sequence, first character must be a digit. -/
def pyDigits (dval : Char → Option Nat) (base : Nat) : List Char → Option Nat
  | [] => none
  | c :: rest =>
    match dval c with
    | some d => pyDigitsAux dval base d rest
    | none => none

/-- Digit sequence directly after a `0x`/`0o`/`0b` prefix: one extra `'_'`
may separate the prefix from the digits. -/
def pyDigitsPrefixed (dval : Char → Option Nat) (base : Nat) (l : List Char) : Option Nat :=
  match l with
  | [] => none
  | c :: rest => if c = '_' then pyDigits dval base rest else pyDigits dval base l

/-- Unsigned part of a Python base-0 integer literal: `0x`/`0o`/`0b` prefix
selects the base; otherwise decimal, where a literal starting with `'0'`
must denote zero. -/
def pyIntUnsigned (l : List Char) : Option Nat :=
  match l with
  | c0 :: c1 :: rest =>
    if c0 = '0' ∧ (c1 = 'x' ∨ c1 = 'X') then pyDigitsPrefixed hexVal 16 rest
    else if c0 = '0' ∧ (c1 = 'o' ∨ c1 = 'O') then pyDigitsPrefixed octVal 8 rest
    else if c0 = '0' ∧ (c1 = 'b' ∨ c1 = 'B') then pyDigitsPrefixed binVal 2 rest
    else if c0 = '0' then
      match pyDigits decVal 10 l with
      | some 0 => some 0
      | _ => none
    else pyDigits decVal 10 l
  | _ => pyDigits decVal 10 l

/-- Signed Python base-0 integer literal on a stripped character list. -/
def pyIntChars (l : List Char) : Option Int :=
  match l with
  | [] => none
  | c :: rest =>
    if c = '+' then (pyIntUnsigned rest).map Int.ofNat
    else if c = '-' then (pyIntUnsigned rest).map (fun n => -(n : Int))
    else (pyIntUnsigned l).map Int.ofNat

/-- Python `int(s, 0)`: auto base detection.  `none` models `ValueError`. -/
def pyIntBase0 (s : String) : Option Int := pyIntChars (stripChars s.data)

/-! ### Python number formatting -/

/-- Little-endian base-`b` digit list with explicit fuel (the fuel only
bounds the recursion; with fuel `> logb n` the result is `Nat.digits b n`). -/
def natDigitsLE (b : Nat) : Nat → Nat → List Nat
  | 0, _ => []
  | fuel + 1, n => if n = 0 then [] else n % b :: natDigitsLE b fuel (n / b)

/-- Base-`b` digit characters of `n`, most significant first (empty for 0). -/
def natBaseChars (b n : Nat) : List Char :=
  ((natDigitsLE b (n + 1) n).map Nat.digitChar).reverse

/-- Base-`b` rendering of a natural number, lowercase, no prefix. -/
def natBaseStr (b n : Nat) : String :=
  if n = 0 then "0" else String.mk (natBaseChars b n)

/-- Zero padding to a minimum width. -/
def padZeroChars (w : Nat) (l : List Char) : List Char :=
  List.replicate (w - l.length) '0' ++ l

/-- Python `format(i, '0<w><base>')`: zero-pad to total width `w`; for a
negative number the sign precedes the padding. -/
def pyFmtBase (b : Nat) (i : Int) (w : Nat) : String :=
  if i < 0 then "-" ++ String.mk (padZeroChars (w - 1) (natBaseStr b i.natAbs).data)
  else String.mk (padZeroChars w (natBaseStr b i.toNat).data)

/-- Python `format(i, '0<w>x')`. -/
def pyFmtHex (i : Int) (w : Nat) : String := pyFmtBase 16 i w

/-- Python `format(i, '0<w>b')`. -/
def pyFmtBin (i : Int) (w : Nat) : String := pyFmtBase 2 i w

/-- Python `str(i)` for an `int`. -/
def pyStr (i : Int) : String :=
  if i < 0 then "-" ++ natBaseStr 10 i.natAbs else natBaseStr 10 i.toNat

/-- Python `format(s, '<w>s')`: left-justify, pad with spaces to width `w`. -/
def pyPadRight (s : String) (w : Nat) : String :=
  s ++ String.mk (List.replicate (w - s.data.length) ' ')

/-- Python `i >> k` on `int`: arithmetic shift = floor division by `2 ^ k`. -/
def pyShr (v : Int) (k : Nat) : Int := Int.fdiv v (2 ^ k)

/-- Python `i & m` for the all-ones mask `m = 2 ^ k - 1`: on two's-complement
integers this is the nonnegative remainder modulo `2 ^ k`. -/
def pyMask (v : Int) (k : Nat) : Int := Int.emod v (2 ^ k)

/-! ### Environment model

The external world the script touches: the results of the two `glob` calls,
`os.readlink`, `os.path.exists`, the write-then-read text protocol of the
two `registers` pseudo-files, and the `ethtool` subprocess.  An
`Except.error` result models a raised exception (carrying its message). -/

structure Env where
  /-- Result of `glob("/sys/class/net/*/device/driver")`. -/
  netDevices : List String
  /-- `os.readlink`; `none` models `OSError`. -/
  readlink : String → Option String
  /-- `os.path.exists`. -/
  pathExists : String → Bool
  /-- Writing the request string to the debugfs `registers` file at the given
  path and reading the file back; `Except.error` models an I/O exception. -/
  debugfsWriteRead : String → String → Except String String
  /-- Result of `glob(f"{sysfs_path}/spi*/registers")` for a sysfs path. -/
  spiGlob : String → List String
  /-- Writing the command string to the SPI `registers` attribute at the given
  path and reading it back; `Except.error` models an I/O exception. -/
  spiWriteRead : String → String → Except String String
  /-- Running `ethtool -d <iface>`: `Except.ok (returncode, stdout)`, while
  `Except.error` models a raised exception (e.g. `ethtool` not installed). -/
  ethtool : String → Except String (Int × String)

/-- The two path fields of a `LAN8651Debugfs` object after `find_interfaces`
(`none` models the Python `None`; `find_interfaces` never stores `""`). -/
structure DevState where
  debugfs_path : Option String
  sysfs_path : Option String
deriving Repr, DecidableEq

/-- Candidate debugfs directories probed by `find_interfaces`. -/
def debugCandidatePaths : List String :=
  ["/sys/kernel/debug/tc6", "/sys/kernel/debug/lan865x", "/sys/kernel/debug/spi"]

/-- Scan of the driver symlinks in `find_interfaces`: first entry whose
resolved link contains `"lan865x"` determines `sysfs_path`; `OSError` from
`readlink` skips the entry; the `[-3]` split index raising `IndexError`
(impossible for real glob results) is an uncaught exception (`.error`). -/
def findSysfsPath (env : Env) : List String → Except Unit (Option String)
  | [] => .ok none
  | device_path :: rest =>
    match env.readlink device_path with
    | none => findSysfsPath env rest
    | some driver_link =>
      if strContains driver_link "lan865x" then
        match pyNegIdx (pySplitChar device_path '/') 3 with
        | some iface_name => .ok (some ("/sys/class/net/" ++ iface_name ++ "/device"))
        | none => .error ()
      else findSysfsPath env rest

/-- Debugfs-path scan in `find_interfaces`: first existing candidate wins. -/
def findDebugPath (env : Env) : List String → Option String
  | [] => none
  | p :: rest => if env.pathExists p then some p else findDebugPath env rest

/-- `LAN8651Debugfs.find_interfaces` (run by the constructor): discovers
`sysfs_path` from the driver symlinks and `debugfs_path` from the fixed
candidate list (only when `/sys/kernel/debug` exists). -/
def find_interfaces (env : Env) : Except Unit DevState :=
  match findSysfsPath env env.netDevices with
  | .error e => .error e
  | .ok sysfs =>
    let debugfs :=
      if env.pathExists "/sys/kernel/debug" then findDebugPath env debugCandidatePaths
      else none
    .ok ⟨debugfs, sysfs⟩

/-! ### The three read methods and the fallback chain -/

/-- `LAN8651Debugfs.read_via_debugfs`: requires `debugfs_path` and an
existing `registers` file; writes `f"0x{address:08x}"`, reads back, strips,
and parses with `int(_, 0)`.  Every exception (I/O or `ValueError`) is
caught and yields `none` (the diagnostic print is not modelled). -/
def read_via_debugfs (env : Env) (st : DevState) (address : Int) : Option Int :=
  match st.debugfs_path with
  | none => none
  | some dp =>
    let reg_file := dp ++ "/registers"
    if env.pathExists reg_file then
      match env.debugfsWriteRead reg_file ("0x" ++ pyFmtHex address 8) with
      | .error _ => none
      | .ok result => pyIntBase0 (pyStrip result)
    else none

/-- `LAN8651Debugfs.read_via_spi_debug`: requires `sysfs_path` and a
nonempty `spi*/registers` glob; writes `f"read 0x{address:08x}"` to the
first match, reads back a stripped line, and only when it contains `'='`
parses the stripped substring after the first `'='`.  All exceptions are
caught and yield `none`. -/
def read_via_spi_debug (env : Env) (st : DevState) (address : Int) : Option Int :=
  match st.sysfs_path with
  | none => none
  | some sp =>
    match env.spiGlob sp with
    | [] => none
    | attr :: _ =>
      match env.spiWriteRead attr ("read 0x" ++ pyFmtHex address 8) with
      | .error _ => none
      | .ok raw =>
        let result := pyStrip raw
        if strContains result "=" then
          match (pySplitChar result '=').get? 1 with
          | some value_str => pyIntBase0 (pyStrip value_str)
          | none => none
        else none

/-- Inner token scan of `read_via_ethtool`: the first whitespace token of the
line that contains the (lowercased) address string and has a following token
yields that following token; a match in the final token is skipped by the
`i+1 < len(parts)` guard. -/
def ethtoolScanParts (addrHex : String) : List String → Option String
  | [] => none
  | part :: rest =>
    if strContains (pyLower part) addrHex ∧ ¬ rest.isEmpty then rest.head?
    else ethtoolScanParts addrHex rest

/-- Line scan of `read_via_ethtool`: lines not containing the address string
are skipped; on the first line that both contains it and yields a following
token, that token is parsed with `int(_, 0)` and returned (a `ValueError`
there is caught by the method's `try` and aborts with `none`). -/
def ethtoolScanLines (addrHex : String) : List String → Option Int
  | [] => none
  | line :: rest =>
    if strContains (pyLower line) addrHex then
      match ethtoolScanParts addrHex (splitWs line) with
      | some tok => pyIntBase0 tok
      | none => ethtoolScanLines addrHex rest
    else ethtoolScanLines addrHex rest

/-- `LAN8651Debugfs.read_via_ethtool`: runs `ethtool -d <iface>`, and when
the exit code is `0` scans the stdout lines for `f"0x{address:08x}"`
(case-insensitively).  Exceptions and nonzero exit codes yield `none`. -/
def read_via_ethtool (env : Env) (iface : String) (address : Int) : Option Int :=
  match env.ethtool iface with
  | .error _ => none
  | .ok (returncode, stdout) =>
    if returncode = 0 then
      ethtoolScanLines ("0x" ++ pyFmtHex address 8) (pySplitChar stdout '\n')
    else none

/-- `LAN8651Debugfs.read_register`: the fixed-order fallback chain
debugfs → SPI sysfs → ethtool; the first method producing a value
short-circuits the rest.  The ethtool step only runs when `sysfs_path` is
set; its interface name is `sysfs_path.split('/')[-2]`, whose `IndexError`
(impossible for discovered paths) would propagate uncaught (`.error`). -/
def read_register (env : Env) (st : DevState) (address : Int) :
    Except Unit (Option Int) :=
  match read_via_debugfs env st address with
  | some value => .ok (some value)
  | none =>
    match read_via_spi_debug env st address with
    | some value => .ok (some value)
    | none =>
      match st.sysfs_path with
      | none => .ok none
      | some sp =>
        match pyNegIdx (pySplitChar sp '/') 2 with
        | none => .error ()
        | some iface => .ok (read_via_ethtool env iface address)

/-! ### Register display and decode -/

/-- The `reg_names` dictionary of `show_register_info`. -/
def reg_names : List (Int × String) :=
  [(0x10000, "ID_REV"), (0x10001, "STATUS0"), (0x10002, "STATUS1"),
   (0x10003, "CONFIG0"), (0x10004, "CONFIG1"), (0x10005, "CONFIG2"),
   (0x10006, "CONFIG3"), (0x10007, "CONFIG4"), (0x10020, "FIFO_SIZE"),
   (0x10021, "CHUNK_SIZE")]

/-- Dictionary lookup `reg_names[address]` / `address in reg_names`. -/
def lookupRegName (address : Int) : Option String :=
  (reg_names.find? (fun p => p.1 = address)).map (fun p => p.2)

/-- `show_register_info`: the list of printed lines (one entry per `print`).
Always the header line and the 32-bit-padded binary line; for known
addresses the name line; for `ID_REV`, `STATUS0` and `CONFIG0` the decoded
bit fields exactly as the source computes them. -/
def show_register_info (address value : Int) : List String :=
  ["\nRegister 0x" ++ pyFmtHex address 8 ++ " = 0x" ++ pyFmtHex value 8 ++
     " (" ++ pyStr value ++ ")",
   "Binary: " ++ pyFmtBin value 32] ++
  (match lookupRegName address with
   | none => []
   | some nm =>
     ("Name: " ++ nm) ::
     (if address = 0x10000 then
        let chip_id := pyMask (pyShr value 16) 16
        let rev_id := pyMask value 16
        ["Chip ID: 0x" ++ pyFmtHex chip_id 4 ++ ", Revision: 0x" ++ pyFmtHex rev_id 4]
      else if address = 0x10001 then
        ["TX_FRAME_CHECK_SEQUENCE_ERROR: " ++ pyStr (pyMask (pyShr value 0) 1),
         "TX_FRAME_ERROR: " ++ pyStr (pyMask (pyShr value 1) 1),
         "TX_BUFFER_OVERFLOW_ERROR: " ++ pyStr (pyMask (pyShr value 2) 1),
         "TX_FIFO_UNDERFLOW: " ++ pyStr (pyMask (pyShr value 3) 1),
         "RX_FIFO_OVERFLOW: " ++ pyStr (pyMask (pyShr value 4) 1),
         "RX_HEADER_ERROR: " ++ pyStr (pyMask (pyShr value 5) 1)]
      else if address = 0x10003 then
        ["PROTECTED: " ++ pyStr (pyMask (pyShr value 2) 1),
         "TX_CUT_THROUGH: " ++ pyStr (pyMask (pyShr value 4) 1),
         "RX_CUT_THROUGH: " ++ pyStr (pyMask (pyShr value 5) 1)]
      else []))

/-! ### CLI entry point -/

/-- Final process outcome: `success` is Python falling off `main` (exit code
0); `uncaughtError` is an uncaught exception (traceback, exit code 1). -/
inductive ExitOutcome
  | success
  | uncaughtError
deriving Repr, DecidableEq

/-- Modelled run of `main`: the lines printed by `main` itself (including
`show_register_info`) and the process outcome.  Diagnostic prints inside
`LAN8651Debugfs` are pure logging and not part of the modelled output. -/
structure MainResult where
  output : List String
  exit : ExitOutcome
deriving Repr, DecidableEq

/-- Usage block printed when fewer than two `argv` entries are present. -/
def usageLines : List String :=
  ["Usage: python3 lan8651_kernelfs.py <read|list> [address]",
   "Examples:",
   "  python3 lan8651_kernelfs.py read 0x10000",
   "  python3 lan8651_kernelfs.py list"]

/-- Usage line printed when `read` is called without exactly one address. -/
def readUsageLine : String := "Usage: python3 lan8651_kernelfs.py read <address>"

/-- Remediation guidance printed on total read failure. -/
def guidanceLines : List String :=
  ["\nTo enable register access, you need to:",
   "1. Ensure debugfs is mounted: mount -t debugfs none /sys/kernel/debug",
   "2. Add register access support to lan865x driver",
   "3. Or use the ethtool approach with driver extension"]

/-- Static register table of the `list` subcommand. -/
def registersTable : List (Int × String × String) :=
  [(0x10000, "ID_REV", "Chip and Revision ID"),
   (0x10001, "STATUS0", "Status Register 0"),
   (0x10002, "STATUS1", "Status Register 1"),
   (0x10003, "CONFIG0", "Configuration Register 0"),
   (0x10004, "CONFIG1", "Configuration Register 1"),
   (0x10020, "FIFO_SIZE", "FIFO Size Configuration"),
   (0x10021, "CHUNK_SIZE", "Chunk Size Configuration")]

/-- Printed lines of the `list` subcommand. -/
def listLines : List String :=
  "\nKnown LAN8651 Registers:" ::
  registersTable.map (fun e =>
    "  0x" ++ pyFmtHex e.1 8 ++ " - " ++ pyPadRight e.2.1 12 ++ " - " ++ e.2.2)

/-- The script's `main` (named `pyMain` here because Lean reserves `main`
for executable entry points): `argv` is the full `sys.argv` (script name
first).  Fewer than two entries prints the usage block; then the
`LAN8651Debugfs` constructor runs `find_interfaces`; `list` prints the
static table; `read` with exactly one further argument parses it with
`int(_, 0)` (an unparseable address is an uncaught `ValueError`), runs the
fallback chain and prints either the decoded register or the guidance
block; any other subcommand falls through the `if`/`elif` chain and prints
nothing. -/
def pyMain (argv : List String) (env : Env) : MainResult :=
  match argv with
  | [] => ⟨usageLines, .success⟩
  | [_] => ⟨usageLines, .success⟩
  | _ :: cmd :: args =>
    match find_interfaces env with
    | .error _ => ⟨[], .uncaughtError⟩
    | .ok st =>
      if cmd = "list" then ⟨listLines, .success⟩
      else if cmd = "read" then
        match args with
        | [addrStr] =>
          match pyIntBase0 addrStr with
          | none => ⟨[], .uncaughtError⟩
          | some address =>
            match read_register env st address with
            | .error _ => ⟨[], .uncaughtError⟩
            | .ok (some value) => ⟨show_register_info address value, .success⟩
            | .ok none => ⟨guidanceLines, .success⟩
        | _ => ⟨[readUsageLine], .success⟩
      else ⟨[], .success⟩

/-! ### Supporting lemmas: digits and formatting -/

theorem natDigitsLE_eq_digits {b : Nat} (hb : 2 ≤ b) :
    ∀ fuel n, n < b ^ fuel → natDigitsLE b fuel n = Nat.digits b n := by
  intro fuel
  induction fuel with
  | zero =>
    intro n h
    rw [pow_zero] at h
    have hn : n = 0 := Nat.lt_one_iff.mp h
    subst hn
    simp [natDigitsLE]
  | succ fuel ih =>
    intro n h
    by_cases hn : n = 0
    · subst hn; simp [natDigitsLE]
    · rw [natDigitsLE, if_neg hn,
        Nat.digits_def' (by omega : 1 < b) (Nat.pos_of_ne_zero hn)]
      congr 1
      refine ih (n / b) ?_
      rw [Nat.div_lt_iff_lt_mul (by omega : 0 < b)]
      calc n < b ^ (fuel + 1) := h
        _ = b ^ fuel * b := pow_succ b fuel

theorem natBaseChars_eq_digits {b : Nat} (hb : 2 ≤ b) (n : Nat) :
    natBaseChars b n = ((Nat.digits b n).map Nat.digitChar).reverse := by
  unfold natBaseChars
  rw [natDigitsLE_eq_digits hb (n + 1) n]
  calc n < b ^ n := Nat.lt_pow_self (by omega) n
    _ ≤ b ^ (n + 1) := Nat.pow_le_pow_right (by omega) (Nat.le_succ n)

theorem digits_length_le {b n k : Nat} (hb : 1 < b) (h : n < b ^ k) :
    (Nat.digits b n).length ≤ k := by
  by_cases hn : n = 0
  · subst hn; simp
  · rw [Nat.digits_len b n hb hn]
    have := Nat.log_lt_of_lt_pow hn h
    omega

/-! ### Supporting lemmas: whitespace stripping -/

theorem dropWhile_eq_self_of {p : Char → Bool} {l : List Char}
    (h : ∀ c ∈ l, p c = false) : l.dropWhile p = l := by
  cases l with
  | nil => rfl
  | cons c t =>
    rw [List.dropWhile_cons, h c (List.mem_cons_self c t)]
    simp

theorem stripChars_eq_self {l : List Char}
    (h : ∀ c ∈ l, isPySpace c = false) : stripChars l = l := by
  unfold stripChars
  rw [dropWhile_eq_self_of h, dropWhile_eq_self_of (by simpa using h),
    List.reverse_reverse]

theorem pyStrip_eq_self {s : String}
    (h : ∀ c ∈ s.data, isPySpace c = false) : pyStrip s = s := by
  unfold pyStrip
  rw [stripChars_eq_self h]

/-! ### Supporting lemmas: parsing hexadecimal digit strings -/

theorem hexVal_digitChar : ∀ d < 16, hexVal (Nat.digitChar d) = some d := by decide

theorem digitChar_ne_underscore : ∀ d < 16, Nat.digitChar d ≠ '_' := by decide

theorem digitChar_not_space : ∀ d < 16, isPySpace (Nat.digitChar d) = false := by decide

theorem pyDigitsAux_cons_digit {dval : Char → Option Nat} {base acc : Nat}
    {c : Char} {rest : List Char} {d : Nat}
    (hne : c ≠ '_') (hval : dval c = some d) :
    pyDigitsAux dval base acc (c :: rest) =
      pyDigitsAux dval base (acc * base + d) rest := by
  rw [pyDigitsAux.eq_def]
  simp [if_neg hne, hval]

theorem pyDigitsAux_replicate_zero (k : Nat) (l : List Char) :
    pyDigitsAux hexVal 16 0 (List.replicate k '0' ++ l) = pyDigitsAux hexVal 16 0 l := by
  induction k with
  | zero => rfl
  | succ k ih =>
    rw [List.replicate_succ, List.cons_append,
      pyDigitsAux_cons_digit (by decide) (show hexVal '0' = some 0 from rfl)]
    simpa using ih

theorem pyDigitsAux_map_digitChar (ds : List Nat) (acc : Nat)
    (h : ∀ d ∈ ds, d < 16) :
    pyDigitsAux hexVal 16 acc (ds.map Nat.digitChar) =
      some (ds.foldl (fun a d => a * 16 + d) acc) := by
  induction ds generalizing acc with
  | nil => rfl
  | cons d ds ih =>
    have hd : d < 16 := h d (List.mem_cons_self d ds)
    rw [List.map_cons,
      pyDigitsAux_cons_digit (digitChar_ne_underscore d hd) (hexVal_digitChar d hd)]
    exact ih (acc * 16 + d) (fun x hx => h x (List.mem_cons_of_mem d hx))

theorem foldl_reverse_digits (ds : List Nat) (acc : Nat) :
    List.foldl (fun a d => a * 16 + d) acc ds.reverse =
      acc * 16 ^ ds.length + Nat.ofDigits 16 ds := by
  induction ds generalizing acc with
  | nil => simp
  | cons d ds ih =>
    rw [List.reverse_cons, List.foldl_append, ih, Nat.ofDigits_cons]
    simp only [List.foldl, List.length_cons]
    rw [pow_succ]
    ring

theorem pyDigits_eq_aux {c : Char} {rest : List Char} {d : Nat}
    (hne : c ≠ '_') (hval : hexVal c = some d) :
    pyDigits hexVal 16 (c :: rest) = pyDigitsAux hexVal 16 0 (c :: rest) := by
  rw [pyDigits.eq_def, pyDigitsAux_cons_digit hne hval]
  simp [hval]

theorem pyDigitsPrefixed_cons {dval : Char → Option Nat} {base : Nat}
    {c : Char} {rest : List Char} (hne : c ≠ '_') :
    pyDigitsPrefixed dval base (c :: rest) = pyDigits dval base (c :: rest) := by
  simp [pyDigitsPrefixed, hne]

theorem pyDigitsPrefixed_padded (ds : List Nat) (k : Nat)
    (hne : ds ≠ []) (h : ∀ d ∈ ds, d < 16) :
    pyDigitsPrefixed hexVal 16 (List.replicate k '0' ++ ds.map Nat.digitChar) =
      some (ds.foldl (fun a d => a * 16 + d) 0) := by
  have hdigits : pyDigits hexVal 16 (List.replicate k '0' ++ ds.map Nat.digitChar) =
      pyDigitsAux hexVal 16 0 (List.replicate k '0' ++ ds.map Nat.digitChar) := by
    cases k with
    | zero =>
      cases ds with
      | nil => exact absurd rfl hne
      | cons d ds' =>
        have hd : d < 16 := h d (List.mem_cons_self d ds')
        simpa using pyDigits_eq_aux (digitChar_ne_underscore d hd) (hexVal_digitChar d hd)
    | succ k' =>
      rw [List.replicate_succ, List.cons_append]
      exact pyDigits_eq_aux (by decide) (show hexVal '0' = some 0 from rfl)
  have hpre : pyDigitsPrefixed hexVal 16 (List.replicate k '0' ++ ds.map Nat.digitChar) =
      pyDigits hexVal 16 (List.replicate k '0' ++ ds.map Nat.digitChar) := by
    cases k with
    | zero =>
      cases ds with
      | nil => exact absurd rfl hne
      | cons d ds' =>
        have hd : d < 16 := h d (List.mem_cons_self d ds')
        simpa using pyDigitsPrefixed_cons (digitChar_ne_underscore d hd)
    | succ k' =>
      rw [List.replicate_succ, List.cons_append]
      exact pyDigitsPrefixed_cons (by decide)
  rw [hpre, hdigits, pyDigitsAux_replicate_zero,
    pyDigitsAux_map_digitChar ds 0 h]

/-! ### The debugfs hex request round-trip -/

theorem hexRequest_data (n : Nat) :
    ("0x" ++ pyFmtHex (Int.ofNat n) 8).data =
      '0' :: 'x' :: padZeroChars 8 (natBaseStr 16 n).data := by
  have hfmt : pyFmtHex (Int.ofNat n) 8 =
      String.mk (padZeroChars 8 (natBaseStr 16 n).data) := by
    unfold pyFmtHex pyFmtBase
    rw [if_neg (show ¬ Int.ofNat n < 0 from Int.not_lt.mpr (Int.ofNat_nonneg n)),
      show (Int.ofNat n).toNat = n from rfl]
  rw [hfmt, String.data_append]
  rfl

theorem hexRequest_no_space (n : Nat) :
    ∀ c ∈ ("0x" ++ pyFmtHex (Int.ofNat n) 8).data, isPySpace c = false := by
  rw [hexRequest_data]
  intro c hc
  rcases List.mem_cons.mp hc with rfl | hc
  · rfl
  rcases List.mem_cons.mp hc with rfl | hc
  · rfl
  rw [padZeroChars] at hc
  rcases List.mem_append.mp hc with hrep | hbase
  · rw [List.eq_of_mem_replicate hrep]; rfl
  · by_cases hn : n = 0
    · subst hn
      rw [show (natBaseStr 16 0).data = ['0'] from rfl] at hbase
      rw [List.mem_singleton.mp hbase]
      rfl
    · rw [natBaseStr, if_neg hn] at hbase
      have hbase' : c ∈ natBaseChars 16 n := hbase
      rw [natBaseChars_eq_digits (by norm_num), List.mem_reverse] at hbase'
      obtain ⟨d, hd, rfl⟩ := List.mem_map.mp hbase'
      exact digitChar_not_space d (Nat.digits_lt_base (by norm_num) hd)

theorem pyIntBase0_hexRequest (n : Nat) :
    pyIntBase0 ("0x" ++ pyFmtHex (Int.ofNat n) 8) = some (Int.ofNat n) := by
  unfold pyIntBase0
  rw [hexRequest_data n,
    stripChars_eq_self (by rw [← hexRequest_data n]; exact hexRequest_no_space n)]
  have hred : pyIntChars ('0' :: 'x' :: padZeroChars 8 (natBaseStr 16 n).data) =
      (pyDigitsPrefixed hexVal 16 (padZeroChars 8 (natBaseStr 16 n).data)).map Int.ofNat := by
    rfl
  rw [hred]
  by_cases hn : n = 0
  · subst hn; rfl
  · have hds : (natBaseStr 16 n).data = ((Nat.digits 16 n).reverse).map Nat.digitChar := by
      rw [natBaseStr, if_neg hn]
      show natBaseChars 16 n = _
      rw [natBaseChars_eq_digits (by norm_num), List.map_reverse]
    rw [hds, padZeroChars,
      pyDigitsPrefixed_padded ((Nat.digits 16 n).reverse) _
        (by
          rw [ne_eq, List.reverse_eq_nil_iff]
          exact Nat.digits_ne_nil_iff_ne_zero.mpr hn)
        (by
          intro d hd
          exact Nat.digits_lt_base (by norm_num) (List.mem_reverse.mp hd)),
      foldl_reverse_digits, Nat.ofDigits_digits]
    simp

/-! ### Supporting lemmas: formatted field widths -/

theorem natBaseStr_data_length_le {b n w : Nat} (hb : 2 ≤ b) (hw : 1 ≤ w)
    (h : n < b ^ w) : (natBaseStr b n).data.length ≤ w := by
  by_cases hn : n = 0
  · subst hn
    simpa [natBaseStr] using hw
  · rw [natBaseStr, if_neg hn]
    show (natBaseChars b n).length ≤ w
    rw [natBaseChars_eq_digits hb, List.length_reverse, List.length_map]
    exact digits_length_le (by omega) h

theorem pyFmtBase_length {b : Nat} (i : Int) (w : Nat) (hb : 2 ≤ b) (hw : 1 ≤ w)
    (h0 : 0 ≤ i) (h : i.toNat < b ^ w) : (pyFmtBase b i w).length = w := by
  rw [pyFmtBase, if_neg (Int.not_lt.mpr h0)]
  show (padZeroChars w (natBaseStr b i.toNat).data).length = w
  rw [padZeroChars, List.length_append, List.length_replicate]
  have := natBaseStr_data_length_le hb hw h
  omega

/-! ### Supporting lemmas: ethtool dump scanning -/

theorem ethtoolScanLines_skip (addrHex : String) (pre rest : List String)
    (h : ∀ l ∈ pre, strContains (pyLower l) addrHex = false) :
    ethtoolScanLines addrHex (pre ++ rest) = ethtoolScanLines addrHex rest := by
  induction pre with
  | nil => rfl
  | cons l pre ih =>
    have hl := h l (List.mem_cons_self l pre)
    rw [List.cons_append, ethtoolScanLines.eq_def]
    simp only [hl]
    simpa using ih (fun x hx => h x (List.mem_cons_of_mem l hx))

theorem ethtoolScanLines_cons_found {addrHex line : String} {rest : List String}
    {tok : String}
    (hc : strContains (pyLower line) addrHex = true)
    (hp : ethtoolScanParts addrHex (splitWs line) = some tok) :
    ethtoolScanLines addrHex (line :: rest) = pyIntBase0 tok := by
  rw [ethtoolScanLines.eq_def]
  simp [hc, hp]

theorem ethtoolScanParts_no_early_match (addrHex : String) :
    ∀ parts : List String,
      (∀ p ∈ parts.dropLast, strContains (pyLower p) addrHex = false) →
      ethtoolScanParts addrHex parts = none := by
  intro parts
  induction parts with
  | nil => intro _; rfl
  | cons p rest ih =>
    intro h
    cases rest with
    | nil => simp [ethtoolScanParts]
    | cons q t =>
      have hp : strContains (pyLower p) addrHex = false := by
        refine h p ?_
        rw [List.dropLast_cons₂]
        exact List.mem_cons_self p _
      rw [ethtoolScanParts.eq_def]
      simp only [hp]
      simpa using ih (fun x hx => by
        refine h x ?_
        rw [List.dropLast_cons₂]
        exact List.mem_cons_of_mem p hx)

/-! ### Concrete environments used as witnesses and counterexamples -/

/-- Barren system: nothing discovered, every probe fails. -/
def envNone : Env where
  netDevices := []
  readlink := fun _ => none
  pathExists := fun _ => false
  debugfsWriteRead := fun _ _ => .error "io error"
  spiGlob := fun _ => []
  spiWriteRead := fun _ _ => .error "io error"
  ethtool := fun _ => .error "ethtool not found"

/-- System whose debugfs `registers` file echoes back the request string. -/
def envEcho : Env where
  netDevices := []
  readlink := fun _ => none
  pathExists := fun _ => true
  debugfsWriteRead := fun _ request => .ok request
  spiGlob := fun _ => []
  spiWriteRead := fun _ _ => .error "io error"
  ethtool := fun _ => .error "ethtool not found"

/-- Device state with a discovered debugfs path and no sysfs interface. -/
def stEcho : DevState := ⟨some "/sys/kernel/debug/tc6", none⟩

/-- Device state with a discovered sysfs interface `eth0` and no debugfs. -/
def stIface : DevState := ⟨none, some "/sys/class/net/eth0/device"⟩

/-- System whose SPI `registers` attribute answers without an `=` sign. -/
def envSpiNoEq : Env where
  netDevices := []
  readlink := fun _ => none
  pathExists := fun _ => false
  debugfsWriteRead := fun _ _ => .error "io error"
  spiGlob := fun _ => ["/sys/class/net/eth0/device/spi0.0/registers"]
  spiWriteRead := fun _ _ => .ok "no delimiter here"
  ethtool := fun _ => .error "ethtool not found"

/-- System whose `ethtool -d` dump contains the register line once. -/
def envEthtool : Env where
  netDevices := []
  readlink := fun _ => none
  pathExists := fun _ => false
  debugfsWriteRead := fun _ _ => .error "io error"
  spiGlob := fun _ => []
  spiWriteRead := fun _ _ => .error "io error"
  ethtool := fun _ =>
    .ok (0, "LAN865x registers\n0x00010000  0x1234abcd\n0x00010001  0x00000000")

/-- System whose `ethtool -d` dump mentions the address token on an earlier
line with a different following value. -/
def envEthtoolDup : Env where
  netDevices := []
  readlink := fun _ => none
  pathExists := fun _ => false
  debugfsWriteRead := fun _ _ => .error "io error"
  spiGlob := fun _ => []
  spiWriteRead := fun _ _ => .error "io error"
  ethtool := fun _ => .ok (0, "0x00010000 0xdeadbeef\n0x00010000  0x1234abcd")

/-- System whose debugfs `registers` file answers with a 33-bit value. -/
def envBig : Env where
  netDevices := []
  readlink := fun _ => none
  pathExists := fun _ => true
  debugfsWriteRead := fun _ _ => .ok "0x100000000"
  spiGlob := fun _ => []
  spiWriteRead := fun _ _ => .error "io error"
  ethtool := fun _ => .error "ethtool not found"

/-- System whose `ethtool -d` dump has the address token as the final token
of its only line. -/
def envEthtoolLast : Env where
  netDevices := []
  readlink := fun _ => none
  pathExists := fun _ => false
  debugfsWriteRead := fun _ _ => .error "io error"
  spiGlob := fun _ => []
  spiWriteRead := fun _ _ => .error "io error"
  ethtool := fun _ => .ok (0, "offset 0x00010000")

/-! ### Claim theorems -/

/-- C1: `read_register` tries debugfs, SPI-sysfs, ethtool in that fixed
order and the first parsed value short-circuits the rest: whenever the
debugfs path is set, its `registers` file exists and echoes back exactly
the written hex request `0x%08x`, every 32-bit address reads back as
itself (format-then-parse round trip).  The SPI and ethtool fields of
`env` are completely unconstrained, so neither fallback method can have
influenced the result. -/
theorem claim1_debugfs_echo_shortcircuit (env : Env) (st : DevState)
    (p : String) (address : Int)
    (hdp : st.debugfs_path = some p)
    (hex : env.pathExists (p ++ "/registers") = true)
    (hecho : ∀ s, env.debugfsWriteRead (p ++ "/registers") s = .ok s)
    (h0 : 0 ≤ address) (h32 : address < 2 ^ 32) :
    read_register env st address = .ok (some address) := by
  obtain ⟨n, rfl⟩ : ∃ n : Nat, address = Int.ofNat n :=
    ⟨address.toNat, (Int.toNat_of_nonneg h0).symm⟩
  have hdbg : read_via_debugfs env st (Int.ofNat n) = some (Int.ofNat n) := by
    rw [read_via_debugfs.eq_def, hdp]
    simp only [hex, if_true, hecho]
    rw [pyStrip_eq_self (hexRequest_no_space n), pyIntBase0_hexRequest]
  rw [read_register.eq_def, hdbg]

theorem claim1_witness :
    read_register envEcho stEcho 291 = .ok (some 291) :=
  claim1_debugfs_echo_shortcircuit envEcho stEcho "/sys/kernel/debug/tc6" 291
    rfl rfl (fun _ => rfl) (by decide) (by decide)

/-- C2: when all three read methods yield no value, `read_register` returns
`None` rather than raising, and `main` on `read <address>` prints the
remediation guidance block and the process exits successfully. -/
theorem claim2_total_failure (env : Env) (st : DevState) (address : Int)
    (prog s : String)
    (hfind : find_interfaces env = .ok st)
    (hparse : pyIntBase0 s = some address)
    (h1 : read_via_debugfs env st address = none)
    (h2 : read_via_spi_debug env st address = none)
    (h3 : ∀ iface, read_via_ethtool env iface address = none)
    (h4 : st.sysfs_path = none ∨
      ∃ sp iface, st.sysfs_path = some sp ∧
        pyNegIdx (pySplitChar sp '/') 2 = some iface) :
    read_register env st address = .ok none ∧
    pyMain [prog, "read", s] env = ⟨guidanceLines, .success⟩ := by
  have hrr : read_register env st address = .ok none := by
    rcases h4 with h4 | ⟨sp, iface, hsp, hidx⟩
    · simp only [read_register, h1, h2, h4]
    · simp only [read_register, h1, h2, hsp, hidx, h3 iface]
  refine ⟨hrr, ?_⟩
  simp only [pyMain, hfind, hparse, hrr]
  simp

theorem claim2_witness :
    read_register envNone ⟨none, none⟩ 65536 = .ok none ∧
    pyMain ["lan8651_kernelfs.py", "read", "0x10000"] envNone =
      ⟨guidanceLines, .success⟩ :=
  claim2_total_failure envNone ⟨none, none⟩ 65536 "lan8651_kernelfs.py" "0x10000"
    rfl rfl rfl rfl (fun _ => rfl) (Or.inl rfl)

/-- C3 counterexample: the invocation `lan8651_kernelfs.py status` has an
unrecognized subcommand, yet prints nothing at all (in particular not the
usage text, which is a nonempty block) while still exiting successfully —
the `if`/`elif` chain in `main` has no final `else`. -/
theorem claim3_counterexample :
    pyMain ["lan8651_kernelfs.py", "status"] envNone = ⟨[], .success⟩ ∧
    usageLines ≠ [] := ⟨rfl, by decide⟩

/-- C3 (amended): an invocation with no subcommand argument prints the
usage text and exits with code 0; an invocation with an unrecognized
subcommand also exits with code 0 but prints nothing (no usage text). -/
theorem claim3_amended (argv : List String) (env : Env) (prog cmd : String)
    (args : List String) (st : DevState)
    (hshort : argv.length < 2) (hfind : find_interfaces env = .ok st)
    (hcl : cmd ≠ "list") (hcr : cmd ≠ "read") :
    pyMain argv env = ⟨usageLines, .success⟩ ∧
    pyMain (prog :: cmd :: args) env = ⟨[], .success⟩ := by
  constructor
  · cases argv with
    | nil => rfl
    | cons a t =>
      cases t with
      | nil => rfl
      | cons b t2 =>
        rw [List.length_cons, List.length_cons] at hshort
        omega
  · simp only [pyMain, hfind, hcl, hcr]
    simp

theorem claim3_witness :
    pyMain [] envNone = ⟨usageLines, .success⟩ ∧
    pyMain ["lan8651_kernelfs.py", "foo", "bar"] envNone = ⟨[], .success⟩ := by
  have h := claim3_amended [] envNone "lan8651_kernelfs.py" "foo" ["bar"]
    ⟨none, none⟩ (by decide) rfl (by decide) (by decide)
  exact ⟨h.1, h.2⟩

/-- C4: when the SPI-sysfs `registers` attribute exists but its read-back
line contains no `=`, the second method returns `none` (not an error), and
`read_register` then proceeds to the ethtool method. -/
theorem claim4_spi_no_equals (env : Env) (st : DevState) (address : Int)
    (sp attr : String) (restAttrs : List String) (r : String)
    (hsp : st.sysfs_path = some sp)
    (hglob : env.spiGlob sp = attr :: restAttrs)
    (hresp : env.spiWriteRead attr ("read 0x" ++ pyFmtHex address 8) = .ok r)
    (hne : strContains (pyStrip r) "=" = false) :
    read_via_spi_debug env st address = none ∧
    ∀ iface, read_via_debugfs env st address = none →
      pyNegIdx (pySplitChar sp '/') 2 = some iface →
      read_register env st address = .ok (read_via_ethtool env iface address) := by
  have hspi : read_via_spi_debug env st address = none := by
    simp only [read_via_spi_debug, hsp, hglob, hresp]
    simp [hne]
  refine ⟨hspi, fun iface h1 hidx => ?_⟩
  simp only [read_register, h1, hspi, hsp, hidx]

theorem claim4_witness :
    read_via_spi_debug envSpiNoEq stIface 65536 = none ∧
    read_register envSpiNoEq stIface 65536 =
      .ok (read_via_ethtool envSpiNoEq "eth0" 65536) := by
  have h := claim4_spi_no_equals envSpiNoEq stIface 65536
    "/sys/class/net/eth0/device" "/sys/class/net/eth0/device/spi0.0/registers"
    [] "no delimiter here" rfl rfl rfl (by decide)
  exact ⟨h.1, h.2 "eth0" rfl rfl⟩

theorem pyFmtHex_length (i : Int) (w : Nat) (hw : 1 ≤ w) (h0 : 0 ≤ i)
    (h : i.toNat < 16 ^ w) : (pyFmtHex i w).length = w :=
  pyFmtBase_length i w (by norm_num) hw h0 h

theorem pyFmtBin_length (i : Int) (w : Nat) (hw : 1 ≤ w) (h0 : 0 ≤ i)
    (h : i.toNat < 2 ^ w) : (pyFmtBin i w).length = w :=
  pyFmtBase_length i w (by norm_num) hw h0 h

/-- C5 counterexample: an `ethtool -d` run that exits with code 0 and whose
output contains the line `0x00010000  0x1234abcd` — yet reading address
`0x10000` returns `0xdeadbeef`, because an earlier line also contains the
address token and the scan takes the first match. -/
theorem claim5_counterexample :
    envEthtoolDup.ethtool "eth0" =
      .ok (0, "0x00010000 0xdeadbeef\n0x00010000  0x1234abcd") ∧
    "0x00010000  0x1234abcd" ∈
      pySplitChar "0x00010000 0xdeadbeef\n0x00010000  0x1234abcd" '\n' ∧
    read_via_ethtool envEthtoolDup "eth0" 65536 = some 0xdeadbeef ∧
    (0xdeadbeef : Int) ≠ 0x1234abcd :=
  ⟨rfl, by decide, rfl, by decide⟩

/-- C5 (amended): if `ethtool -d <iface>` exits with code 0 and the first
line of its output containing the token `0x00010000` (case-insensitively)
is `0x00010000  0x1234abcd`, then reading address `0x10000` returns
`0x1234abcd`, the token following the address token on that line, parsed
with auto base detection. -/
theorem claim5_amended (env : Env) (iface stdout : String)
    (pre post : List String)
    (hrun : env.ethtool iface = .ok (0, stdout))
    (hsplit : pySplitChar stdout '\n' = pre ++ "0x00010000  0x1234abcd" :: post)
    (hfirst : ∀ l ∈ pre, strContains (pyLower l) "0x00010000" = false) :
    read_via_ethtool env iface 65536 = some 0x1234abcd := by
  have h1 : read_via_ethtool env iface 65536 =
      ethtoolScanLines ("0x" ++ pyFmtHex 65536 8) (pySplitChar stdout '\n') := by
    simp only [read_via_ethtool, hrun]
    simp
  rw [h1, show ("0x" ++ pyFmtHex (65536 : Int) 8) = "0x00010000" from rfl, hsplit,
    ethtoolScanLines_skip _ _ _ hfirst,
    @ethtoolScanLines_cons_found "0x00010000" "0x00010000  0x1234abcd" post
      "0x1234abcd" rfl rfl]
  rfl

theorem claim5_witness :
    read_via_ethtool envEthtool "eth0" 65536 = some 0x1234abcd :=
  claim5_amended envEthtool "eth0"
    "LAN865x registers\n0x00010000  0x1234abcd\n0x00010001  0x00000000"
    ["LAN865x registers"] ["0x00010001  0x00000000"] rfl (by decide) (by decide)

/-- C6: decoding address `0x10000` (ID_REV) splits the value into its upper
16 bits as chip ID (`(v >> 16) & 0xFFFF`) and lower 16 bits as revision
(`v & 0xFFFF`); at value `0x00A10003` the printed line shows chip ID
`0x00a1` and revision `0x0003`. -/
theorem claim6_idrev_decode :
    (∀ value : Int,
      show_register_info 0x10000 value =
        ["\nRegister 0x" ++ pyFmtHex 0x10000 8 ++ " = 0x" ++ pyFmtHex value 8 ++
           " (" ++ pyStr value ++ ")",
         "Binary: " ++ pyFmtBin value 32,
         "Name: ID_REV",
         "Chip ID: 0x" ++ pyFmtHex (pyMask (pyShr value 16) 16) 4 ++
           ", Revision: 0x" ++ pyFmtHex (pyMask value 16) 4]) ∧
    show_register_info 0x10000 0x00A10003 =
      ["\nRegister 0x00010000 = 0x00a10003 (10551299)",
       "Binary: 00000000101000010000000000000011",
       "Name: ID_REV",
       "Chip ID: 0x00a1, Revision: 0x0003"] :=
  ⟨fun _ => rfl, rfl⟩

/-- C7: decoding address `0x10001` (STATUS0) extracts the six single-bit
flags at bit offsets 0 through 5; at value `0b100001` the printed flags are
TX_FRAME_CHECK_SEQUENCE_ERROR=1, RX_HEADER_ERROR=1, and the four others 0. -/
theorem claim7_status0_decode :
    (∀ value : Int,
      show_register_info 0x10001 value =
        ["\nRegister 0x" ++ pyFmtHex 0x10001 8 ++ " = 0x" ++ pyFmtHex value 8 ++
           " (" ++ pyStr value ++ ")",
         "Binary: " ++ pyFmtBin value 32,
         "Name: STATUS0",
         "TX_FRAME_CHECK_SEQUENCE_ERROR: " ++ pyStr (pyMask (pyShr value 0) 1),
         "TX_FRAME_ERROR: " ++ pyStr (pyMask (pyShr value 1) 1),
         "TX_BUFFER_OVERFLOW_ERROR: " ++ pyStr (pyMask (pyShr value 2) 1),
         "TX_FIFO_UNDERFLOW: " ++ pyStr (pyMask (pyShr value 3) 1),
         "RX_FIFO_OVERFLOW: " ++ pyStr (pyMask (pyShr value 4) 1),
         "RX_HEADER_ERROR: " ++ pyStr (pyMask (pyShr value 5) 1)]) ∧
    show_register_info 0x10001 0b100001 =
      ["\nRegister 0x00010001 = 0x00000021 (33)",
       "Binary: 00000000000000000000000000100001",
       "Name: STATUS0",
       "TX_FRAME_CHECK_SEQUENCE_ERROR: 1",
       "TX_FRAME_ERROR: 0",
       "TX_BUFFER_OVERFLOW_ERROR: 0",
       "TX_FIFO_UNDERFLOW: 0",
       "RX_FIFO_OVERFLOW: 0",
       "RX_HEADER_ERROR: 1"] :=
  ⟨fun _ => rfl, rfl⟩

/-- C8 counterexample: because `int(_, 0)` performs no range validation, a
successful read can produce the value `2^32` (debugfs answering
`0x100000000`), and the binary expansion printed for it is 33 characters,
not exactly 32 — the `032b` padding is only a minimum width. -/
theorem claim8_counterexample :
    read_register envBig stEcho 65536 = .ok (some 4294967296) ∧
    (show_register_info 65536 4294967296).get? 1 =
      some ("Binary: " ++ pyFmtBin 4294967296 32) ∧
    (pyFmtBin 4294967296 32).length = 33 :=
  ⟨rfl, rfl, rfl⟩

/-- C8 (amended): the display routine always prints the address as
zero-padded hex, the decimal value, and a zero-padded binary expansion;
the address field is exactly 8 hex digits and the binary expansion exactly
32 characters whenever the address and the value lie in `[0, 2^32)` (the
widths are minimums, exceeded by out-of-range values). -/
theorem claim8_amended (address value : Int)
    (ha0 : 0 ≤ address) (ha : address < 2 ^ 32)
    (hv0 : 0 ≤ value) (hv : value < 2 ^ 32) :
    (show_register_info address value).get? 0 =
      some ("\nRegister 0x" ++ pyFmtHex address 8 ++ " = 0x" ++
        pyFmtHex value 8 ++ " (" ++ pyStr value ++ ")") ∧
    (show_register_info address value).get? 1 =
      some ("Binary: " ++ pyFmtBin value 32) ∧
    (pyFmtHex address 8).length = 8 ∧
    (pyFmtBin value 32).length = 32 := by
  have hpow : (2 : Int) ^ 32 = 4294967296 := by norm_num
  rw [hpow] at ha hv
  refine ⟨rfl, rfl, ?_, ?_⟩
  · refine pyFmtHex_length address 8 (by norm_num) ha0 ?_
    have h16 : (16 : Nat) ^ 8 = 4294967296 := by norm_num
    rw [h16]
    omega
  · refine pyFmtBin_length value 32 (by norm_num) hv0 ?_
    have h2 : (2 : Nat) ^ 32 = 4294967296 := by norm_num
    rw [h2]
    omega

theorem claim8_witness :
    (pyFmtHex (65536 : Int) 8).length = 8 ∧
    (pyFmtBin (10551299 : Int) 32).length = 32 :=
  ⟨(claim8_amended 65536 10551299 (by norm_num) (by norm_num) (by norm_num)
      (by norm_num)).2.2.1,
   (claim8_amended 65536 10551299 (by norm_num) (by norm_num) (by norm_num)
      (by norm_num)).2.2.2⟩

/-- C9: the `i+1 < len(parts)` guard makes the ethtool token extraction
total: if no token before the last one matches the address string, the part
scan returns `none` — in particular a match in the final token of a line
never indexes past the end, and a dump whose only occurrence of the address
is the last token of its line yields no value. -/
theorem claim9_last_token_guard (addrHex : String) :
    (∀ parts : List String,
      (∀ p ∈ parts.dropLast, strContains (pyLower p) addrHex = false) →
      ethtoolScanParts addrHex parts = none) ∧
    read_via_ethtool envEthtoolLast "eth0" 65536 = none :=
  ⟨ethtoolScanParts_no_early_match addrHex, rfl⟩

theorem claim9_witness :
    ethtoolScanParts "0x00010000" ["offset", "0x00010000"] = none :=
  (claim9_last_token_guard "0x00010000").1 ["offset", "0x00010000"] (by decide)

/-- C10: a `read <address>` invocation whose address does not parse as a
Python base-0 integer literal hits the bare `int(sys.argv[2], 0)` in
`main`; the `ValueError` is caught nowhere, so the process dies with an
uncaught exception (nonzero exit status), unlike every error inside the
read methods. -/
theorem claim10_unparseable_address (prog s : String) (env : Env)
    (hbad : pyIntBase0 s = none) :
    (pyMain [prog, "read", s] env).exit = .uncaughtError := by
  cases hfe : find_interfaces env with
  | error e => simp only [pyMain, hfe]
  | ok st =>
    simp only [pyMain, hfe, hbad]
    simp

theorem claim10_witness :
    pyIntBase0 "xyz" = none ∧
    (pyMain ["lan8651_kernelfs.py", "read", "xyz"] envNone).exit =
      .uncaughtError :=
  ⟨rfl, claim10_unparseable_address "lan8651_kernelfs.py" "xyz" envNone rfl⟩
